import Mathlib

/-
Shallow embedding of aten/src/ATen/native/quantized/cpu/qnnpack_utils.h.

Floating-point values (float/double) are modelled as exact rationals (ℚ):
every arithmetic step the claims exercise is exact at the inputs involved,
and the rounding primitive `nearbyint` (FE_TONEAREST, round half to even)
is embedded directly as `Round` below.  Machine-integer narrowing casts to
uint8_t are modelled explicitly as `% 256`; the signed intermediates
(int32_t / int64_t) are modelled as unbounded ℤ, exact wherever the C
intermediates stay in range (outside that range the C casts are undefined
behaviour, which has no denotation to embed).
-/

namespace QnnpackUtils

/-- The C narrowing conversion `(uint8_t) x` from a signed integer:
reduction modulo 256 (unsigned wraparound, never saturation). -/
def uint8_cast (x : ℤ) : ℕ := (x % 256).toNat

/-- `Round` from qnnpack_utils.h: `std::nearbyint` / `::nearbyintf` under the
default rounding mode FE_TONEAREST, i.e. round to nearest with ties to even
(banker's rounding).  The C function returns the rounded value as a float;
since that value is integral we return it as ℤ (the later
`static_cast<int32_t>` in `QuantizeUint8` is exact on in-range integral
floats). -/
def Round (x : ℚ) : ℤ :=
  let f := Int.floor x
  if x - f < 1/2 then f
  else if (1:ℚ)/2 < x - f then f + 1
  else if f % 2 = 0 then f else f + 1

/-- `QuantizeUint8(float scale, int32_t zero_point, float value)`:
`r = zero_point + (int32_t) Round(value / scale)`; `r = max(r, qmin)`;
`r = min(r, qmax)`; `return (uint8_t) r;` with qmin = 0, qmax = 255
(the numeric limits of uint8_t, held as int32_t). -/
def QuantizeUint8 (scale : ℚ) (zero_point : ℤ) (value : ℚ) : ℕ :=
  let qmin : ℤ := 0
  let qmax : ℤ := 255
  let r := zero_point + Round (value / scale)
  let r2 := max r qmin
  let r3 := min r2 qmax
  uint8_cast r3

/-- `enum class Activation : uint8_t { NONE = 0, RELU = 1 }`.  The enum is
backed by uint8_t, so every byte value inhabits the type; we model the
selector as ℕ with the two named codes. -/
def Activation.NONE : ℕ := 0

/-- `Activation::RELU = 1`. -/
def Activation.RELU : ℕ := 1

/-- `activationLimits(float scale, int32_t zero_point, Activation Ac)`:
switch on `Ac`; NONE returns {0, 255}, RELU returns
{QuantizeUint8(scale, zero_point, 0.0), 255}.  The `default:` case is
`__builtin_unreachable()` (MSVC: `__assume(0)`) — a compiler hint with
undefined behaviour and no runtime check; the source defines no result
there, which we model as `none`. -/
def activationLimits (scale : ℚ) (zero_point : ℤ) (Ac : ℕ) :
    Option (ℕ × ℕ) :=
  if Ac = Activation.NONE then some (0, 255)
  else if Ac = Activation.RELU then
    some (QuantizeUint8 scale zero_point 0, 255)
  else none

/-- `generate_requantization_scales(weight_scales, input_scale, output_scale)`:
allocates a vector of `weight_scales.numel()` floats and overwrites each
entry `i` with `weight_scales_data[i] * input_scale / output_scale`. -/
def generate_requantization_scales (weight_scales : List ℚ)
    (input_scale output_scale : ℚ) : List ℚ :=
  weight_scales.map (fun w => w * input_scale / output_scale)

/-- The ATen quantization schemes `make_zero_points_and_scales_tensor`
dispatches on: `at::kPerTensorAffine`, `at::kPerChannelAffine`, and any
other scheme (ATen has further qscheme values, e.g. per-tensor symmetric),
which the source's if/else-if chain leaves unhandled. -/
inductive QScheme where
  | perTensorAffine
  | perChannelAffine
  | other
deriving DecidableEq

/-- The quantized weight tensor, read through its accessors: `size(0)`
(leading-dimension / output-channel count), `qscheme()`, the per-tensor
parameters `q_zero_point()` (int64_t) and `q_scale()` (double), and the
per-channel parameter tensors read element-wise (`item<int32_t>()` /
`item<float>()`).  Out-of-range element reads (possible only if the
per-channel lists are shorter than size0, undefined behaviour in C) are
modelled by `getD _ 0`. -/
structure QTensor where
  size0 : ℕ
  qscheme : QScheme
  q_zero_point : ℤ
  q_scale : ℚ
  q_per_channel_zero_points : List ℤ
  q_per_channel_scales : List ℚ

/-- `make_zero_points_and_scales_tensor(weight_contig)`: allocates a
uint8 tensor and a float tensor of length `size(0)` via
`at::native::empty_cpu` (uninitialized storage; we model the never-written
contents of an unhandled-scheme buffer as 0), then fills them:
per-tensor-affine writes `(uint8_t)(q_zero_point() + 128)` and `q_scale()`
to every channel; per-channel-affine writes
`(uint8_t)(q_per_channel_zero_points()[i] + 128)` and
`q_per_channel_scales()[i]` per channel; any other scheme writes nothing
and the buffers are returned as allocated. -/
def make_zero_points_and_scales_tensor (w : QTensor) : List ℕ × List ℚ :=
  let C := w.size0
  let weight_zp : List ℕ :=
    match w.qscheme with
    | QScheme.perTensorAffine =>
        List.replicate C (uint8_cast (w.q_zero_point + 128))
    | QScheme.perChannelAffine =>
        (List.range C).map
          (fun i => uint8_cast (w.q_per_channel_zero_points.getD i 0 + 128))
    | QScheme.other => List.replicate C 0
  let weight_scales : List ℚ :=
    match w.qscheme with
    | QScheme.perTensorAffine => List.replicate C w.q_scale
    | QScheme.perChannelAffine =>
        (List.range C).map (fun i => w.q_per_channel_scales.getD i 0)
    | QScheme.other => List.replicate C 0
  (weight_zp, weight_scales)

/-- Reading a replicated buffer at any in-range index yields the
replicated element. -/
lemma getD_replicate_lt {α : Type} (a d : α) {n i : ℕ} (h : i < n) :
    (List.replicate n a).getD i d = a := by
  induction n generalizing i with
  | zero => omega
  | succ m ih =>
    cases i with
    | zero => simp [List.replicate]
    | succ j => simpa [List.replicate] using ih (by omega)

/-- Reading the buffer produced by an index-driven fill loop at an
in-range index yields the value written for that index. -/
lemma getD_map_range {α : Type} (f : ℕ → α) (d : α) {n i : ℕ} (h : i < n) :
    ((List.range n).map f).getD i d = f i := by
  induction n with
  | zero => omega
  | succ m ih =>
    rcases Nat.lt_succ_iff_lt_or_eq.mp h with h' | h'
    · rw [List.range_succ, List.map_append, List.getD_append]
      · exact ih h'
      · simpa using h'
    · subst h'
      rw [List.range_succ, List.map_append]
      simp [List.getD_append_right, List.getD]

/-- Element-wise description of the requantization-scale loop body. -/
lemma getD_map_scale (ws : List ℚ) (a b : ℚ) (d : ℚ) {i : ℕ}
    (h : i < ws.length) :
    (ws.map (fun w => w * a / b)).getD i d = ws.getD i d * a / b := by
  induction ws generalizing i with
  | nil => simp at h
  | cons x xs ih =>
    cases i with
    | zero => simp
    | succ j => simpa using ih (by simpa using h)

/-- nearbyint is the identity on integral values. -/
lemma Round_intCast (n : ℤ) : Round (n : ℚ) = n := by
  simp [Round]

/-- nearbyint(0.0) = 0. -/
lemma Round_zero : Round 0 = 0 := by
  simpa using Round_intCast 0

/-- The quantizer equals the [0, 255] clamp of the wide signed
intermediate: the trailing uint8_t narrowing is exact because the value
was already clamped into range. -/
lemma QuantizeUint8_eq_clamp (scale : ℚ) (zp : ℤ) (v : ℚ) :
    (QuantizeUint8 scale zp v : ℤ) =
      min (max (zp + Round (v / scale)) 0) 255 := by
  simp only [QuantizeUint8, uint8_cast]
  omega

/-- The quantizer never exceeds 255. -/
lemma QuantizeUint8_le (scale : ℚ) (zp : ℤ) (v : ℚ) :
    QuantizeUint8 scale zp v ≤ 255 := by
  have h := QuantizeUint8_eq_clamp scale zp v
  omega

/-- Quantizing the real value 0.0 yields the clamped zero-point,
independently of the scale. -/
lemma QuantizeUint8_zero_val (scale : ℚ) (zp : ℤ) :
    QuantizeUint8 scale zp 0 = (min (max zp 0) 255).toNat := by
  have h := QuantizeUint8_eq_clamp scale zp 0
  rw [zero_div, Round_zero, add_zero] at h
  omega

/-- `Round` is a nearest-integer rounding: it never moves a value by more
than 1/2 (which excludes truncation). -/
lemma abs_sub_Round_le (x : ℚ) : |x - (Round x : ℚ)| ≤ 1/2 := by
  have h1 : (Int.floor x : ℚ) ≤ x := Int.floor_le x
  have h2 : x < Int.floor x + 1 := Int.lt_floor_add_one x
  simp only [Round]
  rw [abs_le]
  split_ifs with ha hb hc <;> constructor <;> push_cast <;> linarith

/-- At an exact half-way point `Round` picks the even neighbour (which
excludes round-half-up and round-half-away-from-zero). -/
lemma Round_tie_even (x : ℚ) (h : x - (Int.floor x : ℚ) = 1/2) :
    Round x % 2 = 0 := by
  simp only [Round]
  split_ifs with ha hb hc
  · linarith
  · linarith
  · exact hc
  · omega

/-- Claim C1: for every scale > 0, zero-point, and value, QuantizeUint8
returns the clamp of zero_point + Round(value/scale) into [0, 255],
computed in wide signed arithmetic before the uint8 narrowing; whenever
that intermediate exceeds 255 the result is 255, and whenever it is below
0 the result is 0. -/
theorem QuantizeUint8_saturating_clamp (scale : ℚ) (zero_point : ℤ)
    (value : ℚ) (h : 0 < scale) :
    (QuantizeUint8 scale zero_point value : ℤ) =
      min (max (zero_point + Round (value / scale)) 0) 255 ∧
    (255 < zero_point + Round (value / scale) →
      QuantizeUint8 scale zero_point value = 255) ∧
    (zero_point + Round (value / scale) < 0 →
      QuantizeUint8 scale zero_point value = 0) := by
  have hc := QuantizeUint8_eq_clamp scale zero_point value
  refine ⟨hc, fun hgt => ?_, fun hlt => ?_⟩ <;> omega

/-- Witness for C1 at scale = 1, zero_point = 300, value = 0 (the
intermediate 300 exceeds 255, so the result saturates to 255). -/
theorem QuantizeUint8_saturating_clamp_witness :
    ((0 : ℚ) < 1) ∧
    ((QuantizeUint8 1 300 0 : ℤ) = min (max (300 + Round (0 / 1)) 0) 255 ∧
     (255 < 300 + Round (0 / 1) → QuantizeUint8 1 300 0 = 255) ∧
     (300 + Round (0 / 1) < 0 → QuantizeUint8 1 300 0 = 0)) :=
  ⟨by norm_num, QuantizeUint8_saturating_clamp 1 300 0 (by norm_num)⟩

/-- Claim C2: the quantizer rounds value/scale to the nearest integer
(never moving it by more than 1/2, so not truncation) with ties to even
(so not round-half-up), before adding the zero-point; concretely
quantize(1.0, 0, 0.5) = 0, quantize(1.0, 0, 1.5) = 2, and
quantize(1.0, 10, 3.0) = 13. -/
theorem Round_half_even_quantize (x y : ℚ)
    (h : y - (Int.floor y : ℚ) = 1/2) :
    |x - (Round x : ℚ)| ≤ 1/2 ∧ Round y % 2 = 0 ∧
    QuantizeUint8 1 0 (1/2) = 0 ∧ QuantizeUint8 1 0 (3/2) = 2 ∧
    QuantizeUint8 1 10 3 = 13 := by
  refine ⟨abs_sub_Round_le x, Round_tie_even y h, ?_, ?_, ?_⟩ <;>
    norm_num [QuantizeUint8, Round, uint8_cast] <;> decide

/-- Witness for C2 at the tie point y = 3/2 (rounded to the even
neighbour 2) and the non-tie point x = 7/10. -/
theorem Round_half_even_quantize_witness :
    ((3:ℚ)/2 - (Int.floor ((3:ℚ)/2) : ℚ) = 1/2) ∧
    (|(7:ℚ)/10 - (Round ((7:ℚ)/10) : ℚ)| ≤ 1/2 ∧ Round ((3:ℚ)/2) % 2 = 0 ∧
     QuantizeUint8 1 0 (1/2) = 0 ∧ QuantizeUint8 1 0 (3/2) = 2 ∧
     QuantizeUint8 1 10 3 = 13) :=
  ⟨by norm_num [Int.floor_eq_iff],
   Round_half_even_quantize (7/10) (3/2) (by norm_num [Int.floor_eq_iff])⟩

/-- Claim C3: for every scale and zero-point, activationLimits with kind
NONE returns exactly (0, 255), and with kind RELU returns exactly
(QuantizeUint8(scale, zero_point, 0.0), 255); concretely
activationLimits(0.1, 50, RELU) = (50, 255). -/
theorem activationLimits_none_relu (scale : ℚ) (zero_point : ℤ) :
    activationLimits scale zero_point Activation.NONE = some (0, 255) ∧
    activationLimits scale zero_point Activation.RELU =
      some (QuantizeUint8 scale zero_point 0, 255) ∧
    activationLimits (1/10) 50 Activation.RELU = some (50, 255) := by
  refine ⟨rfl, rfl, ?_⟩
  norm_num [activationLimits, Activation.NONE, Activation.RELU,
    QuantizeUint8, Round, uint8_cast] <;> decide

/-- Claim C4: generate_requantization_scales returns a sequence of the
same length as the weight-scale input, with entry i equal to
weightScales[i] * inputScale / outputScale; concretely
([1, 2], 0.5, 0.25) yields [2, 4]. -/
theorem generate_requantization_scales_spec (weightScales : List ℚ)
    (inputScale outputScale : ℚ) (i : ℕ) (h : i < weightScales.length) :
    (generate_requantization_scales weightScales inputScale
        outputScale).length = weightScales.length ∧
    (generate_requantization_scales weightScales inputScale
        outputScale).getD i 0 =
      weightScales.getD i 0 * inputScale / outputScale ∧
    generate_requantization_scales [1, 2] (1/2) (1/4) = [2, 4] := by
  refine ⟨by simp [generate_requantization_scales], ?_, ?_⟩
  · simp only [generate_requantization_scales]
    exact getD_map_scale weightScales inputScale outputScale 0 h
  · norm_num [generate_requantization_scales]

/-- Witness for C4 at weightScales = [1, 2], inputScale = 1/2,
outputScale = 1/4, index 0. -/
theorem generate_requantization_scales_spec_witness :
    ((0:ℕ) < ([1, 2] : List ℚ).length) ∧
    ((generate_requantization_scales [1, 2] (1/2) (1/4)).length =
        ([1, 2] : List ℚ).length ∧
     (generate_requantization_scales [1, 2] (1/2) (1/4)).getD 0 0 =
        ([1, 2] : List ℚ).getD 0 0 * (1/2) / (1/4) ∧
     generate_requantization_scales [1, 2] (1/2) (1/4) = [2, 4]) :=
  ⟨by norm_num, generate_requantization_scales_spec [1, 2] (1/2) (1/4) 0
    (by norm_num)⟩

/-- Claim C5: make_zero_points_and_scales_tensor returns zero-point and
scale sequences of length size(0); under per-tensor-affine every channel
holds (q_zero_point + 128) mod 256 and q_scale (e.g. scale 0.5,
zero-point 10, 4 channels yields [138, 138, 138, 138] and four copies of
0.5); under per-channel-affine channel i holds
(q_per_channel_zero_points[i] + 128) mod 256 and q_per_channel_scales[i]
(e.g. scales [0.1, 0.2] and zero-points [5, -3] yield [133, 125]). -/
theorem make_zero_points_and_scales_tensor_spec (w : QTensor) (i : ℕ)
    (hi : i < w.size0) :
    (make_zero_points_and_scales_tensor w).1.length = w.size0 ∧
    (make_zero_points_and_scales_tensor w).2.length = w.size0 ∧
    (w.qscheme = QScheme.perTensorAffine →
      (make_zero_points_and_scales_tensor w).1.getD i 0 =
        ((w.q_zero_point + 128) % 256).toNat ∧
      (make_zero_points_and_scales_tensor w).2.getD i 0 = w.q_scale) ∧
    (w.qscheme = QScheme.perChannelAffine →
      (make_zero_points_and_scales_tensor w).1.getD i 0 =
        ((w.q_per_channel_zero_points.getD i 0 + 128) % 256).toNat ∧
      (make_zero_points_and_scales_tensor w).2.getD i 0 =
        w.q_per_channel_scales.getD i 0) ∧
    make_zero_points_and_scales_tensor
        ⟨4, QScheme.perTensorAffine, 10, 1/2, [], []⟩ =
      ([138, 138, 138, 138], [1/2, 1/2, 1/2, 1/2]) ∧
    make_zero_points_and_scales_tensor
        ⟨2, QScheme.perChannelAffine, 0, 0, [5, -3], [1/10, 1/5]⟩ =
      ([133, 125], [1/10, 1/5]) := by
  refine ⟨?_, ?_, fun hq => ⟨?_, ?_⟩, fun hq => ⟨?_, ?_⟩, ?_, ?_⟩
  · cases hq : w.qscheme <;> simp [make_zero_points_and_scales_tensor, hq]
  · cases hq : w.qscheme <;> simp [make_zero_points_and_scales_tensor, hq]
  · simp only [make_zero_points_and_scales_tensor, hq]
    exact getD_replicate_lt _ _ hi
  · simp only [make_zero_points_and_scales_tensor, hq]
    exact getD_replicate_lt _ _ hi
  · simp only [make_zero_points_and_scales_tensor, hq]
    exact getD_map_range _ _ hi
  · simp only [make_zero_points_and_scales_tensor, hq]
    exact getD_map_range _ _ hi
  · rfl
  · rfl

/-- Witness for C5 at the per-tensor-affine tensor with scale 1/2,
zero-point 10 and 4 output channels, index 0. -/
theorem make_zero_points_and_scales_tensor_spec_witness :
    ((0:ℕ) <
      (⟨4, QScheme.perTensorAffine, 10, 1/2, [], []⟩ : QTensor).size0) ∧
    ((make_zero_points_and_scales_tensor
        ⟨4, QScheme.perTensorAffine, 10, 1/2, [], []⟩).1.length =
      (⟨4, QScheme.perTensorAffine, 10, 1/2, [], []⟩ : QTensor).size0 ∧
    (make_zero_points_and_scales_tensor
        ⟨4, QScheme.perTensorAffine, 10, 1/2, [], []⟩).2.length =
      (⟨4, QScheme.perTensorAffine, 10, 1/2, [], []⟩ : QTensor).size0 ∧
    ((⟨4, QScheme.perTensorAffine, 10, 1/2, [], []⟩ : QTensor).qscheme =
        QScheme.perTensorAffine →
      (make_zero_points_and_scales_tensor
          ⟨4, QScheme.perTensorAffine, 10, 1/2, [], []⟩).1.getD 0 0 =
        (((⟨4, QScheme.perTensorAffine, 10, 1/2, [], []⟩ :
            QTensor).q_zero_point + 128) % 256).toNat ∧
      (make_zero_points_and_scales_tensor
          ⟨4, QScheme.perTensorAffine, 10, 1/2, [], []⟩).2.getD 0 0 =
        (⟨4, QScheme.perTensorAffine, 10, 1/2, [], []⟩ : QTensor).q_scale) ∧
    ((⟨4, QScheme.perTensorAffine, 10, 1/2, [], []⟩ : QTensor).qscheme =
        QScheme.perChannelAffine →
      (make_zero_points_and_scales_tensor
          ⟨4, QScheme.perTensorAffine, 10, 1/2, [], []⟩).1.getD 0 0 =
        (((⟨4, QScheme.perTensorAffine, 10, 1/2, [], []⟩ :
            QTensor).q_per_channel_zero_points.getD 0 0 + 128) % 256).toNat ∧
      (make_zero_points_and_scales_tensor
          ⟨4, QScheme.perTensorAffine, 10, 1/2, [], []⟩).2.getD 0 0 =
        (⟨4, QScheme.perTensorAffine, 10, 1/2, [], []⟩ :
            QTensor).q_per_channel_scales.getD 0 0) ∧
    make_zero_points_and_scales_tensor
        ⟨4, QScheme.perTensorAffine, 10, 1/2, [], []⟩ =
      ([138, 138, 138, 138], [1/2, 1/2, 1/2, 1/2]) ∧
    make_zero_points_and_scales_tensor
        ⟨2, QScheme.perChannelAffine, 0, 0, [5, -3], [1/10, 1/5]⟩ =
      ([133, 125], [1/10, 1/5])) :=
  ⟨by norm_num, make_zero_points_and_scales_tensor_spec
    ⟨4, QScheme.perTensorAffine, 10, 1/2, [], []⟩ 0 (by norm_num)⟩

/-- Claim C6: under either supported scheme the stored per-channel
zero-point is (z + 128) mod 256 — unsigned 8-bit wraparound, never
saturation; e.g. z = 200 stores 72, not 255. -/
theorem zero_point_bias_wraps (z : ℤ) (n i : ℕ) (hi : i < n) :
    (make_zero_points_and_scales_tensor
        ⟨n, QScheme.perTensorAffine, z, 0, [], []⟩).1.getD i 0 =
      ((z + 128) % 256).toNat ∧
    (make_zero_points_and_scales_tensor
        ⟨n, QScheme.perChannelAffine, 0, 0, List.replicate n z,
          List.replicate n 0⟩).1.getD i 0 =
      ((z + 128) % 256).toNat ∧
    (make_zero_points_and_scales_tensor
        ⟨1, QScheme.perTensorAffine, 200, 0, [], []⟩).1 = [72] := by
  refine ⟨?_, ?_, ?_⟩
  · simp only [make_zero_points_and_scales_tensor]
    exact getD_replicate_lt _ _ hi
  · simp only [make_zero_points_and_scales_tensor]
    rw [getD_map_range _ _ hi, getD_replicate_lt _ _ hi]
    rfl
  · rfl

/-- Witness for C6 at z = 200, one output channel, index 0. -/
theorem zero_point_bias_wraps_witness :
    ((0:ℕ) < 1) ∧
    ((make_zero_points_and_scales_tensor
        ⟨1, QScheme.perTensorAffine, 200, 0, [], []⟩).1.getD 0 0 =
      (((200:ℤ) + 128) % 256).toNat ∧
    (make_zero_points_and_scales_tensor
        ⟨1, QScheme.perChannelAffine, 0, 0, List.replicate 1 200,
          List.replicate 1 0⟩).1.getD 0 0 =
      (((200:ℤ) + 128) % 256).toNat ∧
    (make_zero_points_and_scales_tensor
        ⟨1, QScheme.perTensorAffine, 200, 0, [], []⟩).1 = [72]) :=
  ⟨by norm_num, zero_point_bias_wraps 200 1 0 (by norm_num)⟩

/-- Claim C7 (evaluation at the failing input): for an activation
selector outside {NONE = 0, RELU = 1} the source reaches
`__builtin_unreachable()` / `__assume(0)` — undefined behaviour with no
runtime check — so it produces no defined result (modelled as `none`);
there is no assertion or panic in the code. -/
theorem activationLimits_default_no_result :
    activationLimits 1 0 2 = none ∧ activationLimits (1/10) 50 7 = none :=
  ⟨rfl, rfl⟩

/-- Claim C8 (evaluation at the failing input): for a weight tensor whose
scheme is neither per-tensor affine nor per-channel affine, the function
returns normally — no error path exists — handing back the two length-C
buffers exactly as allocated (uninitialized by `empty_cpu`, modelled as
zeros), rather than failing fast. -/
theorem make_zero_points_unsupported_scheme_silent :
    make_zero_points_and_scales_tensor ⟨2, QScheme.other, 7, 3, [], []⟩ =
      (List.replicate 2 0, List.replicate 2 0) := rfl

/-- Claim C9: for every scale and zero-point and each activation kind in
{NONE, RELU}, the range activationLimits returns satisfies min ≤ max. -/
theorem activationLimits_min_le_max (scale : ℚ) (zero_point : ℤ) (Ac : ℕ)
    (mn mx : ℕ)
    (hAc : Ac = Activation.NONE ∨ Ac = Activation.RELU)
    (h : activationLimits scale zero_point Ac = some (mn, mx)) :
    mn ≤ mx := by
  rcases hAc with hAc | hAc <;> subst hAc
  · have he : activationLimits scale zero_point Activation.NONE =
        some (0, 255) := rfl
    rw [he] at h
    simp only [Option.some_inj, Prod.mk.injEq] at h
    omega
  · simp only [activationLimits, Activation.NONE, Activation.RELU] at h
    norm_num at h
    have hle := QuantizeUint8_le scale zero_point 0
    omega

/-- Witness for C9 at scale = 1, zero-point = 0, kind RELU. -/
theorem activationLimits_min_le_max_witness :
    (((1:ℕ) = Activation.NONE ∨ (1:ℕ) = Activation.RELU) ∧
     activationLimits 1 0 1 = some (QuantizeUint8 1 0 0, 255)) ∧
    QuantizeUint8 1 0 0 ≤ 255 :=
  ⟨⟨Or.inr rfl, rfl⟩,
   activationLimits_min_le_max 1 0 1 (QuantizeUint8 1 0 0) 255
     (Or.inr rfl) rfl⟩

/-- Claim C10: for every scale > 0 and zero-point, the RELU lower bound
returned by activationLimits equals the clamp of the zero-point into
[0, 255] — independent of the scale, since Round(0/scale) = 0. -/
theorem activationLimits_relu_lower_clamp (scale : ℚ) (zero_point : ℤ)
    (h : 0 < scale) :
    activationLimits scale zero_point Activation.RELU =
      some ((min (max zero_point 0) 255).toNat, 255) := by
  have hz := QuantizeUint8_zero_val scale zero_point
  simp [activationLimits, Activation.NONE, Activation.RELU, hz]

/-- Witness for C10 at scale = 1, zero-point = 300 (the lower bound is
the clamped zero-point 255, for any positive scale). -/
theorem activationLimits_relu_lower_clamp_witness :
    ((0:ℚ) < 1) ∧
    activationLimits 1 300 Activation.RELU =
      some ((min (max (300:ℤ) 0) 255).toNat, 255) :=
  ⟨by norm_num, activationLimits_relu_lower_clamp 1 300 (by norm_num)⟩

end QnnpackUtils
